import Mathlib

/-!
# Verification of the NATS messaging layer of `yogenyslav/pkg`

This file is a shallow embedding of the JetStream-based messaging client of
the repository: the protobuf wire codec for the `nats.v1.Message` envelope,
the subject router, the envelope construction of the publish operations, the
stream declaration (subject-filter merging) and the consume-loop message
handler, together with theorems settling the specification claims.

Bytes are modelled as natural numbers (the values `0..255` produced by the
encoder); Go byte-slices and the byte content of Go strings on the wire are
modelled as `List Nat`.
-/

/-! ## Protobuf wire codec (proto file `nats/v1/message.proto`, marshalled
with `proto.Marshal` / `proto.Unmarshal` in `PublishNats`, `Request`,
`Subscribe`, `PublishSync`, `PublishAsync` and `ConsumerMessageHandler`). -/

/-- Base-128 varint encoding of a natural number, least-significant group
first, exactly as in the protobuf wire format. -/
def encodeVarint (n : Nat) : List Nat :=
  if h : n < 128 then [n]
  else (n % 128 + 128) :: encodeVarint (n / 128)
termination_by n
decreasing_by exact Nat.div_lt_self (by omega) (by omega)

/-- Base-128 varint decoding: returns the value and the remaining bytes. -/
def decodeVarint : List Nat → Option (Nat × List Nat)
  | [] => none
  | b :: rest =>
    if b < 128 then some (b, rest)
    else
      match decodeVarint rest with
      | some (n, r) => some (b - 128 + 128 * n, r)
      | none => none

theorem decodeVarint_encodeVarint (n : Nat) (rest : List Nat) :
    decodeVarint (encodeVarint n ++ rest) = some (n, rest) := by
  induction n using Nat.strong_induction_on with
  | _ n ih =>
    rw [encodeVarint]
    split
    · simp [decodeVarint, *]
    · rename_i h
      have hb : ¬ (n % 128 + 128 < 128) := by omega
      have hrec := ih (n / 128) (Nat.div_lt_self (by omega) (by omega))
      simp only [List.cons_append, decodeVarint, hb, if_false, List.append_eq]
      rw [hrec]
      have : n % 128 + 128 * (n / 128) = n := by omega
      simp [this]

/-- A length-delimited protobuf field body: varint length, then the bytes. -/
def encodeLenPrefixed (bytes : List Nat) : List Nat :=
  encodeVarint bytes.length ++ bytes

/-- Decodes a length-delimited field body: reads the varint length and splits
off that many bytes. -/
def decodeLenPrefixed (l : List Nat) : Option (List Nat × List Nat) :=
  match decodeVarint l with
  | none => none
  | some (len, rest) =>
    if len ≤ rest.length then some (rest.take len, rest.drop len) else none

theorem decodeLenPrefixed_encodeLenPrefixed (b rest : List Nat) :
    decodeLenPrefixed (encodeLenPrefixed b ++ rest) = some (b, rest) := by
  unfold encodeLenPrefixed decodeLenPrefixed
  rw [List.append_assoc, decodeVarint_encodeVarint]
  simp [List.take_left, List.drop_left]

/-! ## Two's-complement integer interpretation

Protobuf encodes `int64` fields as the varint of the 64-bit two's-complement
value, and `int32` fields sign-extended to 64 bits; decoders truncate back.
`google.protobuf.Timestamp` has `seconds : int64` and `nanos : int32`. -/

/-- The 64-bit two's-complement image of an integer, as sent on the wire for
both `int64` values and sign-extended `int32` values. -/
def toUint64 (x : Int) : Nat := (x % (2 : Int) ^ 64).toNat

/-- Interpretation of a decoded varint as an `int64`. -/
def decInt64 (u : Nat) : Int :=
  if u % 2 ^ 64 < 2 ^ 63 then ((u % 2 ^ 64 : Nat) : Int)
  else ((u % 2 ^ 64 : Nat) : Int) - 2 ^ 64

/-- Interpretation of a decoded varint as an `int32` (truncation to 32
bits, then two's-complement reading). -/
def decInt32 (u : Nat) : Int :=
  if u % 2 ^ 32 < 2 ^ 31 then ((u % 2 ^ 32 : Nat) : Int)
  else ((u % 2 ^ 32 : Nat) : Int) - 2 ^ 32

theorem decInt64_toUint64 (x : Int) (h1 : -(2 ^ 63) ≤ x) (h2 : x < 2 ^ 63) :
    decInt64 (toUint64 x) = x := by
  unfold decInt64 toUint64
  split <;> omega

theorem decInt32_toUint64 (x : Int) (h1 : -(2 ^ 31) ≤ x) (h2 : x < 2 ^ 31) :
    decInt32 (toUint64 x) = x := by
  unfold decInt32 toUint64
  split <;> omega

/-! ## Optional fields

`proto3` omits scalar fields holding the default value and message fields
whose pointer is nil; `proto.Marshal` writes the present fields of
`nats.v1.Message` (and of the nested `Timestamp`) in ascending field order.
The decoders below parse that canonical layout: each field is optional and
identified by its tag byte. -/

/-- Parses an optional varint-typed field with the given tag byte. Returns
the field value (if the tag is present) and the remaining bytes. -/
def decodeOptVarintField (tag : Nat) (l : List Nat) : Option (Option Nat × List Nat) :=
  match l with
  | [] => some (none, [])
  | b :: rest =>
    if b = tag then
      match decodeVarint rest with
      | some (n, r) => some (some n, r)
      | none => none
    else some (none, b :: rest)

/-- Parses an optional length-delimited field with the given tag byte. -/
def decodeOptLenField (tag : Nat) (l : List Nat) : Option (Option (List Nat) × List Nat) :=
  match l with
  | [] => some (none, [])
  | b :: rest =>
    if b = tag then
      match decodeLenPrefixed rest with
      | some (body, r) => some (some body, r)
      | none => none
    else some (none, b :: rest)

theorem decodeOptVarintField_hit (tag n : Nat) (rest : List Nat) :
    decodeOptVarintField tag (tag :: (encodeVarint n ++ rest)) = some (some n, rest) := by
  simp [decodeOptVarintField, decodeVarint_encodeVarint]

theorem decodeOptVarintField_miss (tag b : Nat) (l : List Nat) (h : ¬ b = tag) :
    decodeOptVarintField tag (b :: l) = some (none, b :: l) := by
  simp [decodeOptVarintField, h]

theorem decodeOptVarintField_nil (tag : Nat) :
    decodeOptVarintField tag [] = some (none, []) := rfl

theorem decodeOptLenField_hit (tag : Nat) (body rest : List Nat) :
    decodeOptLenField tag (tag :: (encodeLenPrefixed body ++ rest)) = some (some body, rest) := by
  simp [decodeOptLenField, decodeLenPrefixed_encodeLenPrefixed]

theorem decodeOptLenField_miss (tag b : Nat) (l : List Nat) (h : ¬ b = tag) :
    decodeOptLenField tag (b :: l) = some (none, b :: l) := by
  simp [decodeOptLenField, h]

theorem decodeOptLenField_nil (tag : Nat) :
    decodeOptLenField tag [] = some (none, []) := rfl

/-! ## The envelope: `nats.v1.Message`

`message Message { google.protobuf.Timestamp ts = 1; string id = 2;
string trace_id = 3; bytes payload = 4; }`.  The Go struct holds `Ts` as a
pointer (nil when absent), so `ts` is an `Option`; `id` and `trace_id` are
modelled by their byte content on the wire (Go strings are byte sequences). -/

/-- `google.protobuf.Timestamp`: `seconds : int64`, `nanos : int32`. -/
structure Timestamp where
  seconds : Int
  nanos : Int
deriving DecidableEq, Repr

/-- The `nats.v1.Message` envelope as marshalled on the wire. -/
structure Message where
  ts : Option Timestamp
  id : List Nat
  traceId : List Nat
  payload : List Nat
deriving DecidableEq, Repr

/-- Wire encoding of the nested `Timestamp` message: field 1 (`seconds`,
varint, tag byte 8) and field 2 (`nanos`, varint, tag byte 16), each
omitted when zero (the proto3 default). -/
def encodeTimestamp (t : Timestamp) : List Nat :=
  (if t.seconds = 0 then [] else 8 :: encodeVarint (toUint64 t.seconds)) ++
  (if t.nanos = 0 then [] else 16 :: encodeVarint (toUint64 t.nanos))

/-- Wire decoding of the nested `Timestamp` message. -/
def decodeTimestamp (l : List Nat) : Option Timestamp :=
  match decodeOptVarintField 8 l with
  | none => none
  | some (sv, r1) =>
    match decodeOptVarintField 16 r1 with
    | none => none
    | some (nv, r2) =>
      if r2 = [] then some ⟨decInt64 (sv.getD 0), decInt32 (nv.getD 0)⟩ else none

/-- Wire encoding of `nats.v1.Message` (`proto.Marshal`): field 1 `ts`
(message, tag byte 10, present iff the Go pointer is non-nil), field 2 `id`
(tag byte 18), field 3 `trace_id` (tag byte 26), field 4 `payload` (tag
byte 34); the scalar fields are omitted when empty (the proto3 default). -/
def encodeMessage (m : Message) : List Nat :=
  (match m.ts with
   | none => []
   | some t => 10 :: encodeLenPrefixed (encodeTimestamp t)) ++
  (if m.id = [] then [] else 18 :: encodeLenPrefixed m.id) ++
  (if m.traceId = [] then [] else 26 :: encodeLenPrefixed m.traceId) ++
  (if m.payload = [] then [] else 34 :: encodeLenPrefixed m.payload)

/-- Decoding of the `ts` field body: an absent field is a nil pointer; a
present field must parse as a `Timestamp`. -/
def decodeTsField (b : Option (List Nat)) : Option (Option Timestamp) :=
  match b with
  | none => some none
  | some bytes =>
    match decodeTimestamp bytes with
    | none => none
    | some t => some (some t)

/-- Wire decoding of `nats.v1.Message` (`proto.Unmarshal` on the canonical
layout); fails on malformed input or trailing bytes. -/
def decodeMessage (l : List Nat) : Option Message :=
  match decodeOptLenField 10 l with
  | none => none
  | some (tsBody, r1) =>
    match decodeTsField tsBody with
    | none => none
    | some ts =>
      match decodeOptLenField 18 r1 with
      | none => none
      | some (idBody, r2) =>
        match decodeOptLenField 26 r2 with
        | none => none
        | some (trBody, r3) =>
          match decodeOptLenField 34 r3 with
          | none => none
          | some (plBody, r4) =>
            if r4 = [] then
              some ⟨ts, idBody.getD [], trBody.getD [], plBody.getD []⟩
            else none

/-- The integer-range invariant of a valid wire `Timestamp`: `seconds` fits
in an `int64` and `nanos` in an `int32`. -/
def Timestamp.wf (t : Timestamp) : Prop :=
  -(2 ^ 63) ≤ t.seconds ∧ t.seconds < 2 ^ 63 ∧ -(2 ^ 31) ≤ t.nanos ∧ t.nanos < 2 ^ 31

/-- A message is well-formed when its timestamp (if present) is. -/
def Message.wf (m : Message) : Prop :=
  ∀ t ∈ m.ts, t.wf

theorem decodeOptVarintField_hit_nil (tag n : Nat) :
    decodeOptVarintField tag (tag :: encodeVarint n) = some (some n, []) := by
  simpa using decodeOptVarintField_hit tag n []

theorem decodeTimestamp_encodeTimestamp (t : Timestamp) (h : t.wf) :
    decodeTimestamp (encodeTimestamp t) = some t := by
  obtain ⟨h1, h2, h3, h4⟩ := h
  have hz64 : decInt64 0 = 0 := by norm_num [decInt64]
  have hz32 : decInt32 0 = 0 := by norm_num [decInt32]
  unfold encodeTimestamp decodeTimestamp
  by_cases hs : t.seconds = 0 <;> by_cases hn : t.nanos = 0 <;>
    simp only [hs, hn, if_true, if_false, List.nil_append, List.append_nil,
      List.cons_append, decodeOptVarintField_nil, decodeOptVarintField_hit,
      decodeOptVarintField_hit_nil,
      decodeOptVarintField_miss 8 16 _ (by omega), List.append_assoc]
  · cases t
    simp_all
  · simp only [decodeOptVarintField_hit_nil 16 (toUint64 t.nanos), Option.getD,
      decInt32_toUint64 t.nanos h3 h4, hz64, if_pos rfl]
    cases t
    simp_all
  · simp only [decodeOptVarintField_nil, Option.getD,
      decInt64_toUint64 t.seconds h1 h2, hz32, if_pos rfl]
    cases t
    simp_all
  · simp [decodeOptVarintField_hit_nil 16 (toUint64 t.nanos),
      decInt64_toUint64 t.seconds h1 h2, decInt32_toUint64 t.nanos h3 h4]

theorem decodeOptLenField_hit_nil (tag : Nat) (body : List Nat) :
    decodeOptLenField tag (tag :: encodeLenPrefixed body) = some (some body, []) := by
  simpa using decodeOptLenField_hit tag body []

/-- C8: for every well-formed envelope, decoding the result of encoding it
yields the original envelope: the payload, id and trace-correlation-id are
identical and the timestamp is preserved exactly (in particular to
millisecond precision). -/
theorem decodeMessage_encodeMessage (m : Message) (hm : Message.wf m) :
    decodeMessage (encodeMessage m) = some m := by
  obtain ⟨ts, id, traceId, payload⟩ := m
  have hts : ∀ t, ts = some t →
      decodeTsField (some (encodeTimestamp t)) = some (some t) := by
    intro t ht
    have := decodeTimestamp_encodeTimestamp t (hm t (by simp [ht]))
    simp [decodeTsField, this]
  cases ts with
  | none =>
    by_cases hid : id = [] <;> by_cases htr : traceId = [] <;>
      by_cases hpl : payload = [] <;>
      simp_all [encodeMessage, decodeMessage, decodeTsField,
        decodeOptLenField_nil, decodeOptLenField_hit, decodeOptLenField_hit_nil,
        decodeOptLenField_miss, List.cons_append, List.append_assoc]
  | some t =>
    have h1 := hts t rfl
    by_cases hid : id = [] <;> by_cases htr : traceId = [] <;>
      by_cases hpl : payload = [] <;>
      simp_all [encodeMessage, decodeMessage,
        decodeOptLenField_nil, decodeOptLenField_hit, decodeOptLenField_hit_nil,
        decodeOptLenField_miss, List.cons_append, List.append_assoc]

/-- Witness for `decodeMessage_encodeMessage` at a concrete envelope. -/
theorem decodeMessage_encodeMessage_witness :
    Message.wf ⟨some ⟨1700000000, 123000000⟩, [97, 98], [99, 100], [1, 2, 3]⟩ ∧
    decodeMessage (encodeMessage ⟨some ⟨1700000000, 123000000⟩, [97, 98], [99, 100], [1, 2, 3]⟩) =
      some ⟨some ⟨1700000000, 123000000⟩, [97, 98], [99, 100], [1, 2, 3]⟩ := by
  have hwf : Message.wf ⟨some ⟨1700000000, 123000000⟩, [97, 98], [99, 100], [1, 2, 3]⟩ := by
    intro t ht
    simp only [Option.mem_def, Option.some.injEq] at ht
    subst ht
    refine ⟨by norm_num, by norm_num, by norm_num, by norm_num⟩
  exact ⟨hwf, decodeMessage_encodeMessage _ hwf⟩

/-! ## The router (`router.go`)

`router` holds a concurrent map (`sync.Map`) from subject to
`EventHandler`; `Store` sets the value for a key (overwriting), `Load`
reads by exact key.  The map is modelled by its lookup function.  In Go the
map stores `any` and `processStreamMessage` asserts the stored value back
to `EventHandler` (a failed assertion panics); in the typed model the table
can only hold handlers, so that branch cannot arise. -/

/-- `EventHandler func(ctx context.Context, m *Message) error`: the result
is `Except.error e` when the Go handler returns a non-nil error. -/
def EventHandler : Type := Message → Except String Unit

/-- The route table: subject → registered handler (`router.handlers`). -/
def RouteTable : Type := String → Option EventHandler

/-- `sync.Map.Store`: sets the handler for a subject, overwriting any
previous registration. -/
def routerStore (t : RouteTable) (subj : String) (h : EventHandler) : RouteTable :=
  fun s => if s = subj then some h else t s

/-- `router.processStreamMessage`: looks up the handler by exact subject;
no handler means success (silent drop); otherwise the handler is invoked
once and its error, if any, is wrapped.  The second component records the
handler invocations performed (handler, message passed). -/
def processStreamMessage (t : RouteTable) (subj : String) (m : Message) :
    Except String Unit × List (EventHandler × Message) :=
  match t subj with
  | none => (Except.ok (), [])
  | some handler =>
    match handler m with
    | Except.ok () => (Except.ok (), [(handler, m)])
    | Except.error e => (Except.error ("handler returned an error: " ++ e), [(handler, m)])

/-- C6: registering a handler for a subject overwrites any previously
registered one (exactly one handler per subject, last registration wins),
and dispatching an envelope addressed to that subject invokes the most
recently registered handler exactly once with that envelope (hence with its
payload). -/
theorem routerStore_last_wins_dispatch_once (t : RouteTable) (s : String)
    (h1 h2 : EventHandler) (m : Message) :
    routerStore (routerStore t s h1) s h2 s = some h2 ∧
    (processStreamMessage (routerStore (routerStore t s h1) s h2) s m).2 = [(h2, m)] := by
  constructor
  · simp [routerStore]
  · unfold processStreamMessage
    rw [show routerStore (routerStore t s h1) s h2 s = some h2 from by simp [routerStore]]
    rcases hres : h2 m with u | e
    · cases u
      simp [hres]
    · simp [hres]

/-- C7: dispatching to a subject with no registered handler returns success
and performs no handler invocation (silent drop). -/
theorem processStreamMessage_no_handler (t : RouteTable) (s : String) (m : Message)
    (h : t s = none) :
    processStreamMessage t s m = (Except.ok (), []) := by
  simp [processStreamMessage, h]

/-- Witness for `processStreamMessage_no_handler`: the empty route table. -/
theorem processStreamMessage_no_handler_witness :
    (fun (_ : String) => (none : Option EventHandler)) "orders.created" = none ∧
    processStreamMessage (fun _ => none) "orders.created" ⟨none, [], [], []⟩ =
      (Except.ok (), []) :=
  ⟨rfl, processStreamMessage_no_handler (fun _ => none) "orders.created" ⟨none, [], [], []⟩ rfl⟩

/-! ## Envelope construction in the publish operations

`PublishNats` and `Request` compute the envelope id with `getMessageID`
(header `messageID`, then a context-carried id, then a fresh UUID);
`PublishSync` and `PublishAsync` set `Id: uuid.NewString()` directly.
Headers are modelled as Go maps (`String → String`, lookup of an absent key
yields `""`), the context value as `Option String` (`none` when the
context carries no string under `MessageIDKey`), and the UUID generator by
the string it returns on this call (`uuid.NewString` always returns a
36-character string, hence a caller supplies a non-empty `uuid`). -/

/-- `getMessageID`: header `messageID` if non-empty, else the
context-carried id if present and non-empty, else a fresh UUID. -/
def getMessageID (headers : String → String) (ctxId : Option String) (uuid : String) : String :=
  if headers "messageID" ≠ "" then headers "messageID"
  else
    match ctxId with
    | none => uuid
    | some mid => if mid = "" then uuid else mid

/-- The envelope fields as constructed before `proto.Marshal`, with the Go
string values (`Ts` is always set to `timestamppb.Now()`, modelled by the
`now` argument; `TraceId` comes from the active span). -/
structure MsgFields where
  ts : Timestamp
  id : String
  traceId : String
  payload : List Nat

/-- The envelope constructed by `PublishNats`. -/
def publishNatsMsg (now : Timestamp) (traceId : String) (payload : List Nat)
    (headers : String → String) (ctxId : Option String) (uuid : String) : MsgFields :=
  { ts := now, id := getMessageID headers ctxId uuid, traceId := traceId, payload := payload }

/-- The envelope constructed by `Request`. -/
def requestMsg (now : Timestamp) (traceId : String) (payload : List Nat)
    (headers : String → String) (ctxId : Option String) (uuid : String) : MsgFields :=
  { ts := now, id := getMessageID headers ctxId uuid, traceId := traceId, payload := payload }

/-- The envelope constructed by `PublishSync`: `Id: uuid.NewString()`; the
headers and the context, though available to the function, do not feed the
id. -/
def publishSyncMsg (now : Timestamp) (traceId : String) (payload : List Nat)
    (_headers : String → String) (_ctxId : Option String) (uuid : String) : MsgFields :=
  { ts := now, id := uuid, traceId := traceId, payload := payload }

/-- The envelope constructed by `PublishAsync`: `Id: uuid.NewString()`. -/
def publishAsyncMsg (now : Timestamp) (traceId : String) (payload : List Nat)
    (_headers : String → String) (_ctxId : Option String) (uuid : String) : MsgFields :=
  { ts := now, id := uuid, traceId := traceId, payload := payload }

/-- C9: for every publish operation, the constructed envelope's id is
non-empty: when the caller supplies no id (empty/absent header and no
context-carried id) the freshly generated UUID is used, and a UUID is
non-empty. -/
theorem publish_message_id_nonempty (now : Timestamp) (traceId : String)
    (payload : List Nat) (headers : String → String) (ctxId : Option String)
    (uuid : String) (hu : uuid ≠ "") :
    (publishNatsMsg now traceId payload headers ctxId uuid).id ≠ "" ∧
    (requestMsg now traceId payload headers ctxId uuid).id ≠ "" ∧
    (publishSyncMsg now traceId payload headers ctxId uuid).id ≠ "" ∧
    (publishAsyncMsg now traceId payload headers ctxId uuid).id ≠ "" := by
  have hg : getMessageID headers ctxId uuid ≠ "" := by
    unfold getMessageID
    split
    · assumption
    · rename_i hh
      cases ctxId with
      | none => exact hu
      | some mid =>
        by_cases hm : mid = "" <;> simp [hm, hu]
  exact ⟨hg, hg, hu, hu⟩

/-- Witness for `publish_message_id_nonempty`: no caller-supplied id at
all, a concrete fresh UUID. -/
theorem publish_message_id_nonempty_witness :
    "3f2c" ≠ "" ∧
    (publishNatsMsg ⟨0, 0⟩ "" [] (fun _ => "") none "3f2c").id ≠ "" ∧
    (requestMsg ⟨0, 0⟩ "" [] (fun _ => "") none "3f2c").id ≠ "" ∧
    (publishSyncMsg ⟨0, 0⟩ "" [] (fun _ => "") none "3f2c").id ≠ "" ∧
    (publishAsyncMsg ⟨0, 0⟩ "" [] (fun _ => "") none "3f2c").id ≠ "" := by
  refine ⟨by decide, ?_⟩
  exact publish_message_id_nonempty ⟨0, 0⟩ "" [] (fun _ => "") none "3f2c" (by decide)

/-- C10: on the durable (JetStream) publish path the envelope id is the
freshly generated UUID — a caller-supplied `messageID` header or a
context-carried id is ignored — while `PublishNats` and `Request` honor
them through `getMessageID`; at a concrete input the two paths produce
different ids. -/
theorem jetstream_publish_ignores_caller_id (now : Timestamp) (traceId : String)
    (payload : List Nat) (headers : String → String) (ctxId : Option String)
    (uuid : String) :
    (publishSyncMsg now traceId payload headers ctxId uuid).id = uuid ∧
    (publishAsyncMsg now traceId payload headers ctxId uuid).id = uuid ∧
    (publishNatsMsg now traceId payload headers ctxId uuid).id =
      getMessageID headers ctxId uuid ∧
    (requestMsg now traceId payload headers ctxId uuid).id =
      getMessageID headers ctxId uuid ∧
    (publishSyncMsg ⟨0, 0⟩ "" []
      (fun k => if k = "messageID" then "custom" else "") none "3f2c").id = "3f2c" ∧
    (publishNatsMsg ⟨0, 0⟩ "" []
      (fun k => if k = "messageID" then "custom" else "") none "3f2c").id = "custom" := by
  refine ⟨rfl, rfl, rfl, rfl, rfl, ?_⟩
  simp [publishNatsMsg, getMessageID]

/-! ## The `Nats` client operations

`Nats` guards every JetStream method on `n.stream == nil` (durable
messaging enabled by `JetStream()`): `Handle`, `AddConsumer` and
`ActiveConsumers` `panic(ErrJetStreamNotEnabled)`, while `PublishSync`,
`PublishAsync`, `Stream`, `Consumer` and `ProcessStream` return
`ErrJetStreamNotEnabled` as an ordinary error.  External effects (the
broker's reply to a publish, the stream listing, the select race between
the ack future and context cancellation) enter the model as oracle
arguments. -/

/-- The errors of the `nats` package: `ErrJetStreamNotEnabled`,
`ErrAckTimeout`, and the wrapped broker-reported errors. -/
inductive NatsErr where
  | jetStreamNotEnabled
  | ackTimeout
  | publishError (msg : String)
  | listStreamsError (msg : String)
  | createStreamError (msg : String)
  | consumerError (msg : String)
  | consumeStartError (msg : String)
deriving DecidableEq, Repr

/-- The result of calling a `Nats` method: a normal return value, a
returned (recoverable) error, or a `panic`. -/
inductive Outcome (α : Type) where
  | ok (a : α)
  | err (e : NatsErr)
  | panicked (e : NatsErr)
deriving DecidableEq, Repr

/-- Whether the call died with a panic (a fatal, panic-equivalent failure). -/
def Outcome.isPanic {α : Type} : Outcome α → Bool
  | .panicked _ => true
  | _ => false

/-- `Nats.Handle`: panics when durable messaging is not enabled, otherwise
stores the handler in the router (overwriting). -/
def natsHandle (streamEnabled : Bool) (t : RouteTable) (subj : String)
    (h : EventHandler) : Outcome RouteTable :=
  if streamEnabled then Outcome.ok (routerStore t subj h)
  else Outcome.panicked NatsErr.jetStreamNotEnabled

/-- `Nats.AddConsumer`: panics when durable messaging is not enabled,
otherwise appends to the active-consumer registry (consumer handles are
opaque). -/
def addConsumer (streamEnabled : Bool) (consumers : List Nat) (c : Nat) :
    Outcome (List Nat) :=
  if streamEnabled then Outcome.ok (consumers ++ [c])
  else Outcome.panicked NatsErr.jetStreamNotEnabled

/-- `Nats.ActiveConsumers`: panics when durable messaging is not enabled,
otherwise returns the registry. -/
def activeConsumers (streamEnabled : Bool) (consumers : List Nat) :
    Outcome (List Nat) :=
  if streamEnabled then Outcome.ok consumers
  else Outcome.panicked NatsErr.jetStreamNotEnabled

/-- `Nats.PublishSync`: returns `ErrJetStreamNotEnabled` when durable
messaging is not enabled; otherwise publishes and waits for the broker ack
(`pubResult` is the broker's reply; the marshal step cannot fail for this
message type). -/
def publishSync (streamEnabled : Bool) (pubResult : Except String Unit) :
    Outcome Unit :=
  if !streamEnabled then Outcome.err NatsErr.jetStreamNotEnabled
  else
    match pubResult with
    | Except.error e => Outcome.err (NatsErr.publishError e)
    | Except.ok () => Outcome.ok ()

/-- `Nats.PublishAsync`: returns `ErrJetStreamNotEnabled` when durable
messaging is not enabled; `pubResult` is the outcome of submitting the
publish; when `withAck` is set the ack future is raced against the caller
context (`ackBeforeCtxDone` tells which side of the `select` fired first),
and losing the race yields `ErrAckTimeout`. -/
def publishAsync (streamEnabled : Bool) (pubResult : Except String Unit)
    (withAck : Bool) (ackBeforeCtxDone : Bool) : Outcome Unit :=
  if !streamEnabled then Outcome.err NatsErr.jetStreamNotEnabled
  else
    match pubResult with
    | Except.error e => Outcome.err (NatsErr.publishError e)
    | Except.ok () =>
      if withAck then
        if ackBeforeCtxDone then Outcome.ok () else Outcome.err NatsErr.ackTimeout
      else Outcome.ok ()

/-- `jetstream.StreamInfo` as consumed by `Nats.Stream`: the existing
stream's name and subject filters. -/
structure StreamInfo where
  name : String
  subjects : List String

/-- `StreamConfig` (from `config.go`). -/
structure StreamConfig where
  name : String
  subjects : List String
  retentionPolicy : Nat
  maxAgeSec : Int
  replicas : Int
  compression : Nat

/-- The subject-filter set computed by `Nats.Stream` before the
create-or-update call: the requested subjects, plus the subjects of every
existing stream with the same name, deduplicated through a set. -/
def mergedStreamSubjects (cfg : StreamConfig) (existing : List StreamInfo) :
    List String :=
  (existing.foldl
    (fun acc info => if info.name = cfg.name then acc ++ info.subjects else acc)
    cfg.subjects).dedup

/-- `Nats.Stream`: returns `ErrJetStreamNotEnabled` when durable messaging
is not enabled; otherwise lists existing streams (`existing`; `listErr` is
the listing error, checked after the merge loop), merges subject filters
and issues the create-or-update call (`createOk` is the broker's reply);
the returned value is the subject set passed to `CreateOrUpdateStream`. -/
def streamOp (streamEnabled : Bool) (cfg : StreamConfig)
    (existing : List StreamInfo) (listErr : Option String) (createOk : Bool) :
    Outcome (List String) :=
  if !streamEnabled then Outcome.err NatsErr.jetStreamNotEnabled
  else
    match listErr with
    | some e => Outcome.err (NatsErr.listStreamsError e)
    | none =>
      if createOk then Outcome.ok (mergedStreamSubjects cfg existing)
      else Outcome.err (NatsErr.createStreamError "create new stream")

/-- `Nats.Consumer`: returns `ErrJetStreamNotEnabled` when durable
messaging is not enabled, otherwise issues the create-or-update consumer
call. -/
def consumerOp (streamEnabled : Bool) (createResult : Except String Unit) :
    Outcome Unit :=
  if !streamEnabled then Outcome.err NatsErr.jetStreamNotEnabled
  else
    match createResult with
    | Except.error e => Outcome.err (NatsErr.consumerError e)
    | Except.ok () => Outcome.ok ()

/-- `Nats.ProcessStream`: returns `ErrJetStreamNotEnabled` when durable
messaging is not enabled, otherwise starts the consume loop. -/
def processStreamOp (streamEnabled : Bool) (consumeStart : Except String Unit) :
    Outcome Unit :=
  if !streamEnabled then Outcome.err NatsErr.jetStreamNotEnabled
  else
    match consumeStart with
    | Except.error e => Outcome.err (NatsErr.consumeStartError e)
    | Except.ok () => Outcome.ok ()

theorem mem_merged_foldl (name : String) (l : List StreamInfo) :
    ∀ (acc : List String) (s : String),
      s ∈ l.foldl (fun acc info =>
          if info.name = name then acc ++ info.subjects else acc) acc ↔
        s ∈ acc ∨ ∃ info ∈ l, info.name = name ∧ s ∈ info.subjects := by
  induction l with
  | nil => simp
  | cons info rest ih =>
    intro acc s
    simp only [List.foldl_cons]
    by_cases hn : info.name = name
    · rw [if_pos hn, ih]
      simp [hn, List.mem_append, or_assoc]
    · rw [if_neg hn, ih]
      simp [hn]

theorem mem_mergedStreamSubjects (cfg : StreamConfig) (existing : List StreamInfo)
    (s : String) :
    s ∈ mergedStreamSubjects cfg existing ↔
      s ∈ cfg.subjects ∨ ∃ info ∈ existing, info.name = cfg.name ∧ s ∈ info.subjects := by
  unfold mergedStreamSubjects
  rw [List.mem_dedup]
  exact mem_merged_foldl cfg.name existing cfg.subjects s

/-- C1: declaring a stream whose name already exists produces the
deduplicated union of the requested subject filters and the existing
stream's filters (never a narrowing), and that set is what `Stream` hands
to the create-or-update call; in particular declaring `X` with `{a,b}` over
an existing `X` with `{a,c}` yields the filter set `{a,b,c}`. -/
theorem stream_merges_subject_filters (cfg : StreamConfig)
    (existing : List StreamInfo) :
    (∀ s, s ∈ mergedStreamSubjects cfg existing ↔
      s ∈ cfg.subjects ∨ ∃ info ∈ existing, info.name = cfg.name ∧ s ∈ info.subjects) ∧
    (mergedStreamSubjects cfg existing).Nodup ∧
    streamOp true cfg existing none true =
      Outcome.ok (mergedStreamSubjects cfg existing) ∧
    (∀ s, s ∈ mergedStreamSubjects ⟨"X", ["a", "b"], 0, 0, 0, 0⟩ [⟨"X", ["a", "c"]⟩] ↔
      (s = "a" ∨ s = "b" ∨ s = "c")) := by
  refine ⟨fun s => mem_mergedStreamSubjects cfg existing s,
    List.nodup_dedup _, rfl, fun s => ?_⟩
  rw [mem_mergedStreamSubjects]
  simp
  tauto

/-- C4: with `withAck` set and the caller's context cancelled before the
acknowledgment future resolves, `PublishAsync` returns the dedicated
`ErrAckTimeout`, which is distinct from every broker-reported publish
error. -/
theorem publishAsync_cancelled_yields_ackTimeout :
    publishAsync true (Except.ok ()) true false = Outcome.err NatsErr.ackTimeout ∧
    ∀ e : String, NatsErr.ackTimeout ≠ NatsErr.publishError e := by
  refine ⟨rfl, fun e h => by cases h⟩

/-- Counterexample to C5 as stated: `PublishSync` invoked before durable
messaging is enabled does not fail fatally — it returns the recoverable
error `ErrJetStreamNotEnabled` (no panic). -/
theorem publishSync_disabled_is_not_fatal :
    publishSync false (Except.ok ()) = Outcome.err NatsErr.jetStreamNotEnabled ∧
    (publishSync false (Except.ok ())).isPanic = false := by
  exact ⟨rfl, rfl⟩

/-- C5 (amended): before durable messaging is enabled, `Handle`,
`AddConsumer` and `ActiveConsumers` fail fatally (panic), while
`PublishSync`, `PublishAsync`, `Stream`, `Consumer` and `ProcessStream`
return the recoverable capability error `ErrJetStreamNotEnabled`. -/
theorem capability_misuse_behavior (t : RouteTable) (subj : String)
    (h : EventHandler) (cs : List Nat) (c : Nat) (pr cr ps : Except String Unit)
    (withAck ackFirst : Bool) (cfg : StreamConfig) (ex : List StreamInfo)
    (le : Option String) (co : Bool) :
    natsHandle false t subj h = Outcome.panicked NatsErr.jetStreamNotEnabled ∧
    addConsumer false cs c = Outcome.panicked NatsErr.jetStreamNotEnabled ∧
    activeConsumers false cs = Outcome.panicked NatsErr.jetStreamNotEnabled ∧
    publishSync false pr = Outcome.err NatsErr.jetStreamNotEnabled ∧
    publishAsync false pr withAck ackFirst = Outcome.err NatsErr.jetStreamNotEnabled ∧
    streamOp false cfg ex le co = Outcome.err NatsErr.jetStreamNotEnabled ∧
    consumerOp false cr = Outcome.err NatsErr.jetStreamNotEnabled ∧
    processStreamOp false ps = Outcome.err NatsErr.jetStreamNotEnabled := by
  exact ⟨rfl, rfl, rfl, rfl, rfl, rfl, rfl, rfl⟩

/-! ## The consume loop (`ConsumerMessageHandler`, `ProcessStream`)

`ConsumerMessageHandler` returns the per-message callback that the
jetstream library invokes for every delivered message: it double-acks the
message (logging and returning on failure), unmarshals the envelope
(logging and returning on failure), and dispatches through the router
(logging and returning on failure).  The callback's observable behaviour
is modelled as the ordered list of events it performs; the oracle `ackOk`
is the broker's reply to `DoubleAck`.  The caller-supplied error sink
(`errHandler` of `ProcessStream`, e.g. `ConsumerErrHandler`) is invoked
only by the jetstream machinery on consume-level errors — the message
callback has no reference to it, which the event trace makes visible. -/

/-- The observable events of the consume path, in program order. -/
inductive CEvent where
  | ack
  | logAckError
  | decoded (m : Message)
  | logDecodeError
  | dispatched (m : Message)
  | logDispatchError
  | logProcessed
  | errorSinkCalled
deriving DecidableEq, Repr

/-- The event trace of the callback returned by `ConsumerMessageHandler`
for one delivered message with subject `subj` and raw bytes `data`. -/
def consumerMessageHandler (t : RouteTable) (ackOk : Bool) (subj : String)
    (data : List Nat) : List CEvent :=
  if !ackOk then [CEvent.logAckError]
  else
    CEvent.ack ::
      match decodeMessage data with
      | none => [CEvent.logDecodeError]
      | some m =>
        CEvent.decoded m :: CEvent.dispatched m ::
          match (processStreamMessage t subj m).1 with
          | Except.error _ => [CEvent.logDispatchError]
          | Except.ok _ => [CEvent.logProcessed]

/-- `Nats.ConsumerErrHandler`: the default caller-supplied error sink,
invoked by the jetstream library on consume-level errors; the only place
an `errorSinkCalled` event can come from. -/
def consumerErrHandler (_e : String) : List CEvent := [CEvent.errorSinkCalled]

/-- One message as delivered by the broker to the consume loop. -/
structure Delivered where
  subj : String
  data : List Nat
  ackOk : Bool

/-- The consume loop from message index `i` on: the jetstream `Consume`
pump invokes the `ConsumerMessageHandler` callback for every delivered
message in order; the callback always returns (it never panics and never
breaks the pump). -/
def consumeLoopFrom (t : RouteTable) : Nat → List Delivered → List (Nat × CEvent)
  | _, [] => []
  | i, d :: rest =>
    (consumerMessageHandler t d.ackOk d.subj d.data).map (fun e => (i, e)) ++
      consumeLoopFrom t (i + 1) rest

/-- The event trace of consuming a whole delivery sequence, each event
tagged with the index of the message it belongs to. -/
def consumeLoop (t : RouteTable) (msgs : List Delivered) : List (Nat × CEvent) :=
  consumeLoopFrom t 0 msgs

theorem consumerMessageHandler_ne_nil (t : RouteTable) (ackOk : Bool)
    (subj : String) (data : List Nat) :
    consumerMessageHandler t ackOk subj data ≠ [] := by
  unfold consumerMessageHandler
  cases ackOk <;> simp

theorem consumeLoopFrom_covers (t : RouteTable) (msgs : List Delivered) :
    ∀ (i j : Nat), j < msgs.length → ∃ e, (i + j, e) ∈ consumeLoopFrom t i msgs := by
  induction msgs with
  | nil => intro i j hj; simp at hj
  | cons d rest ih =>
    intro i j hj
    cases j with
    | zero =>
      obtain ⟨e, he⟩ := List.exists_mem_of_ne_nil _
        (consumerMessageHandler_ne_nil t d.ackOk d.subj d.data)
      exact ⟨e, List.mem_append_left _ (List.mem_map_of_mem _ he)⟩
    | succ j =>
      obtain ⟨e, he⟩ := ih (i + 1) j (by simpa using hj)
      refine ⟨e, List.mem_append_right _ ?_⟩
      have : i + (j + 1) = i + 1 + j := by omega
      rw [this]
      exact he

/-- C2: for every delivered message, the broker acknowledgment (double-ack)
is the first event of the callback whenever the envelope gets decoded or
dispatched: decoding and dispatching happen only after a successful ack. -/
theorem ack_before_decode_and_dispatch (t : RouteTable) (ackOk : Bool)
    (subj : String) (data : List Nat) (m : Message)
    (h : CEvent.decoded m ∈ consumerMessageHandler t ackOk subj data ∨
      CEvent.dispatched m ∈ consumerMessageHandler t ackOk subj data) :
    (consumerMessageHandler t ackOk subj data).head? = some CEvent.ack ∧
    ackOk = true := by
  cases ackOk with
  | false => simp [consumerMessageHandler] at h
  | true => simp [consumerMessageHandler]

/-- Witness for `ack_before_decode_and_dispatch`: a registered handler and
a decodable payload. -/
theorem ack_before_decode_and_dispatch_witness :
    (CEvent.decoded ⟨none, [], [], []⟩ ∈
        consumerMessageHandler (routerStore (fun _ => none) "s" (fun _ => Except.ok ()))
          true "s" [] ∨
      CEvent.dispatched ⟨none, [], [], []⟩ ∈
        consumerMessageHandler (routerStore (fun _ => none) "s" (fun _ => Except.ok ()))
          true "s" []) ∧
    (consumerMessageHandler (routerStore (fun _ => none) "s" (fun _ => Except.ok ()))
        true "s" []).head? = some CEvent.ack ∧
    true = true := by
  have htr : consumerMessageHandler (routerStore (fun _ => none) "s" (fun _ => Except.ok ()))
      true "s" [] =
      [CEvent.ack, CEvent.decoded ⟨none, [], [], []⟩,
        CEvent.dispatched ⟨none, [], [], []⟩, CEvent.logProcessed] := rfl
  have hmem : CEvent.decoded ⟨none, [], [], []⟩ ∈
      consumerMessageHandler (routerStore (fun _ => none) "s" (fun _ => Except.ok ()))
        true "s" [] := by rw [htr]; simp
  exact ⟨Or.inl hmem, ack_before_decode_and_dispatch _ true "s" [] _ (Or.inl hmem)⟩

/-- Counterexample to C3 as stated: a message whose envelope fails to
decode is logged and dropped (after the ack) — the caller-supplied error
sink is never invoked by the message callback, so the decode failure is
not reported to it. -/
theorem decode_failure_not_reported_to_error_sink :
    consumerMessageHandler (fun _ => none) true "s" [10] =
      [CEvent.ack, CEvent.logDecodeError] ∧
    CEvent.errorSinkCalled ∉ consumerMessageHandler (fun _ => none) true "s" [10] := by
  have h : consumerMessageHandler (fun _ => none) true "s" [10] =
      [CEvent.ack, CEvent.logDecodeError] := rfl
  rw [h]
  simp

/-- C3 (amended): a decode failure or a dispatch/handler failure is logged
at the consume loop (not routed to the caller-supplied error sink) and the
loop goes on to process every delivered message — it never terminates on a
single bad message; a message that fails to decode is dropped after having
been acknowledged (its trace is the ack followed by the logged decode
error, with no dispatch). -/
theorem consume_loop_failures_logged_loop_continues (t : RouteTable)
    (msgs : List Delivered) (i : Nat) (hi : i < msgs.length)
    (subj : String) (data : List Nat) (hdec : decodeMessage data = none)
    (subj2 : String) (data2 : List Nat) (m : Message) (e : String)
    (hdec2 : decodeMessage data2 = some m)
    (hdisp : (processStreamMessage t subj2 m).1 = Except.error e) :
    (∃ ev, (i, ev) ∈ consumeLoop t msgs) ∧
    consumerMessageHandler t true subj data = [CEvent.ack, CEvent.logDecodeError] ∧
    consumerMessageHandler t true subj2 data2 =
      [CEvent.ack, CEvent.decoded m, CEvent.dispatched m, CEvent.logDispatchError] := by
  refine ⟨?_, ?_, ?_⟩
  · simpa using consumeLoopFrom_covers t msgs 0 i hi
  · simp [consumerMessageHandler, hdec]
  · simp [consumerMessageHandler, hdec2, hdisp]

/-- Witness for `consume_loop_failures_logged_loop_continues`: a two-message
delivery where the first fails to decode and the second hits a failing
handler; the loop still reaches the second message. -/
theorem consume_loop_failures_witness :
    (1 < ([⟨"bad", [10], true⟩, ⟨"good", [], true⟩] : List Delivered).length) ∧
    decodeMessage [10] = none ∧
    (processStreamMessage
        (routerStore (fun _ => none) "good" (fun _ => Except.error "boom"))
        "good" ⟨none, [], [], []⟩).1 = Except.error "handler returned an error: boom" ∧
    (∃ ev, (1, ev) ∈ consumeLoop
        (routerStore (fun _ => none) "good" (fun _ => Except.error "boom"))
        [⟨"bad", [10], true⟩, ⟨"good", [], true⟩]) ∧
    consumerMessageHandler
        (routerStore (fun _ => none) "good" (fun _ => Except.error "boom"))
        true "bad" [10] = [CEvent.ack, CEvent.logDecodeError] ∧
    consumerMessageHandler
        (routerStore (fun _ => none) "good" (fun _ => Except.error "boom"))
        true "good" [] =
      [CEvent.ack, CEvent.decoded ⟨none, [], [], []⟩,
        CEvent.dispatched ⟨none, [], [], []⟩, CEvent.logDispatchError] := by
  have h1 : (1 : Nat) < ([⟨"bad", [10], true⟩, ⟨"good", [], true⟩] : List Delivered).length := by
    simp
  have h2 : decodeMessage [10] = none := rfl
  have h3 : decodeMessage ([] : List Nat) = some ⟨none, [], [], []⟩ := rfl
  have h4 : (processStreamMessage
      (routerStore (fun _ => none) "good" (fun _ => Except.error "boom"))
      "good" ⟨none, [], [], []⟩).1 = Except.error "handler returned an error: boom" := rfl
  have hmain := consume_loop_failures_logged_loop_continues
    (routerStore (fun _ => none) "good" (fun _ => Except.error "boom"))
    [⟨"bad", [10], true⟩, ⟨"good", [], true⟩] 1 h1 "bad" [10] h2
    "good" [] ⟨none, [], [], []⟩ "handler returned an error: boom" h3 h4
  exact ⟨h1, h2, h4, hmain.1, hmain.2.1, hmain.2.2⟩
